import Mathlib

/-!
Shallow embedding of the passport-openidconnect relying-party implementation
(the SessionStore state store in lib/state/session.js and the OpenID Connect
Strategy in lib/strategy.js) together with proofs about its specification.

Modelling conventions:
* JavaScript runtime values that the code branches on by truthiness are
  modelled by the inductive type JsValue together with the function truthy,
  mirroring JavaScript ToBoolean on the relevant value space.
* Numbers are modelled by the rationals; Date.now() yields milliseconds.
* The random handle produced by utils.uid, the random nonce, the random PKCE
  verifier and the SHA-256 digest are external inputs of the functions that
  consume them, so nondeterminism and crypto are explicit parameters.
* A session is modelled by the entry stored under the configured session key:
  none means req.session[key] is absent; an entry carries the state sub-key
  and the names of the other, application-owned keys of the same object.
-/

namespace PassportOIDC

/-- Model of the JavaScript values the session store handles. -/
inductive JsValue where
  | undefined
  | null
  | bool (b : Bool)
  | num (q : ℚ)
  | str (s : String)
  | date (ms : ℚ)
deriving DecidableEq, Repr

/-- JavaScript ToBoolean on the modelled value space: undefined, null,
false, 0 and the empty string are falsy; Date objects are always truthy. -/
def truthy : JsValue → Bool
  | .undefined => false
  | .null => false
  | .bool b => b
  | .num q => decide (q ≠ 0)
  | .str s => decide (s ≠ "")
  | .date _ => true

/-- Record stored under session[key].state by SessionStore.prototype.store
(lib/state/session.js).  A field that the code never assigned reads back as
undefined, which the default value makes explicit. -/
structure StateRec where
  handle : String
  maxAge : JsValue := .undefined
  nonce : JsValue := .undefined
  issued : JsValue := .undefined
  verifier : JsValue := .undefined
  state : JsValue := .undefined
deriving DecidableEq, Repr

/-- Object found at req.session[key]: the state sub-key plus the names of any
other keys owned by the application (their values are irrelevant to the
store, which only reads Object.keys(...).length after deleting state). -/
structure SessionEntry where
  state : Option StateRec
  others : List String
deriving DecidableEq, Repr

/-- Value of req.session[key]; none when the key is absent. -/
abbrev SessionVal := Option SessionEntry

/-- Request context handed to the store, mirroring the SessionContext
typedef of lib/state/session.js. -/
structure SessionCtx where
  maxAge : JsValue := .undefined
  nonce : JsValue := .undefined
  issued : JsValue := .undefined
  verifier : JsValue := .undefined
deriving DecidableEq, Repr

/-- Error message used by both store and verify when req.session is absent. -/
def noSessionMsg : String :=
  "OpenID Connect requires session support. Did you forget to use `express-session` middleware?"

/-- Outcome of SessionStore.prototype.store: either the error passed to the
callback, or the updated session value together with the generated handle. -/
inductive StoreResult where
  | err (msg : String)
  | ok (session : SessionVal) (handle : String)
deriving DecidableEq, Repr

/-- State record built by SessionStore.prototype.store, lines assigning
state.maxAge / nonce / issued / verifier / state only when the corresponding
context or appState value is truthy. -/
def mkStateRec (ctx : SessionCtx) (appState : JsValue) (handle : String) : StateRec :=
  { handle := handle
    maxAge := if truthy ctx.maxAge then ctx.maxAge else .undefined
    nonce := if truthy ctx.nonce then ctx.nonce else .undefined
    issued := if truthy ctx.issued then ctx.issued else .undefined
    verifier := if truthy ctx.verifier then ctx.verifier else .undefined
    state := if truthy appState then appState else .undefined }

namespace SessionStore

/-- SessionStore.prototype.store.  The argument session is req.session
restricted to the configured key: the outer Option is req.session itself, the
inner SessionVal the entry under the key.  The generated utils.uid(24) handle
is the explicit parameter handle. -/
def store (ctx : SessionCtx) (appState : JsValue) (handle : String)
    (session : Option SessionVal) : StoreResult :=
  match session with
  | none => .err noSessionMsg
  | some sv =>
    let entry : SessionEntry :=
      match sv with
      | none => { state := none, others := [] }
      | some e => e
    .ok (some { entry with state := some (mkStateRec ctx appState handle) }) handle

/-- Outcome delivered to the verify callback: an error, a soft failure
cb(null, false, info) carrying the info message, or success carrying the
reconstructed context and the preserved appState. -/
inductive VerifyOutcome where
  | err (msg : String)
  | failure (message : String)
  | ok (ctx : SessionCtx) (appState : JsValue)
deriving DecidableEq, Repr

/-- Result of SessionStore.prototype.verify: the session after the call and
the callback outcome. -/
structure VerifyResult where
  session : Option SessionVal
  outcome : VerifyOutcome
deriving DecidableEq, Repr

/-- Session value left behind by the deletion step of verify: the state
sub-key is deleted, and the whole entry is deleted when no other key
remains. -/
def removeState (entry : SessionEntry) : SessionVal :=
  if entry.others.isEmpty then none else some { entry with state := none }

/-- Context rebuilt by verify from the stored record: maxAge, nonce and
issued are copied, a string issued is converted through the Date constructor
(modelled by dateParse), and verifier is carried only when truthy. -/
def mkVerifyCtx (dateParse : String → ℚ) (st : StateRec) : SessionCtx :=
  { maxAge := st.maxAge
    nonce := st.nonce
    issued := match st.issued with
      | .str s => .date (dateParse s)
      | v => v
    verifier := if truthy st.verifier then st.verifier else .undefined }

/-- SessionStore.prototype.verify.  dateParse models the Date constructor on
strings, used when a stored issued value is a string. -/
def verify (dateParse : String → ℚ) (reqState : String)
    (session : Option SessionVal) : VerifyResult :=
  match session with
  | none => ⟨none, .err noSessionMsg⟩
  | some sv =>
    match sv with
    | none => ⟨some sv, .failure "Unable to verify authorization request state."⟩
    | some entry =>
      match entry.state with
      | none => ⟨some sv, .failure "Unable to verify authorization request state."⟩
      | some st =>
        if st.handle ≠ reqState then
          ⟨some (removeState entry), .failure "Invalid authorization request state."⟩
        else
          ⟨some (removeState entry), .ok (mkVerifyCtx dateParse st) st.state⟩

/-- Reduction of verify on a session whose entry carries a state record. -/
theorem verify_some_eq (dateParse : String → ℚ) (reqState : String)
    (entry : SessionEntry) (st : StateRec) (h : entry.state = some st) :
    verify dateParse reqState (some (some entry)) =
      if st.handle ≠ reqState then
        ⟨some (removeState entry), .failure "Invalid authorization request state."⟩
      else
        ⟨some (removeState entry), .ok (mkVerifyCtx dateParse st) st.state⟩ := by
  simp only [verify, h]

end SessionStore

/-- Outcome of the restored callback head in Strategy.prototype.authenticate:
an error is forwarded to self.error, a false context becomes
self.fail(info, 403), and otherwise the token exchange proceeds. -/
inductive RestoredOutcome where
  | error (msg : String)
  | fail (message : String) (status : Option Nat)
  | proceed (ctx : SessionCtx) (appState : JsValue)
deriving DecidableEq, Repr

/-- Head of the restored callback (lib/strategy.js): dispatch on the verify
outcome before the token exchange. -/
def restoredHead : SessionStore.VerifyOutcome → RestoredOutcome
  | .err m => .error m
  | .failure msg => .fail msg (some 403)
  | .ok ctx appState => .proceed ctx appState

/-- State sub-key visible in a post-call session value. -/
def stateSubkey : Option SessionVal → Option StateRec
  | some (some e) => e.state
  | _ => none

/-- Deleting the state sub-key leaves no state sub-key behind, whether or not
the whole entry is deleted. -/
theorem stateSubkey_removeState (entry : SessionEntry) :
    stateSubkey (some (SessionStore.removeState entry)) = none := by
  unfold SessionStore.removeState
  split <;> rfl

/-! ID-token claims validation, lib/strategy.js inside the token-exchange
callback: presence checks, audience type check, issuer, audience, authorized
party, expiry, max-age and nonce checks, in source order.  Numeric claims are
modelled as rational numbers (the values JSON.parse yields for the numeric
claims) and string claims as optional strings; absence is none. -/

/-- Value of the aud claim: a string, an array (element values are modelled
as strings; a non-string element never compares equal to the client id, which
is all the code observes about it), some other truthy JSON value, or an
absent or falsy value. -/
inductive AudClaim where
  | str (s : String)
  | arr (elems : List String)
  | otherTruthy
  | absent
deriving DecidableEq, Repr

/-- JavaScript truthiness of the aud claim value. -/
def AudClaim.isTruthy : AudClaim → Bool
  | .str s => decide (s ≠ "")
  | .arr _ => true
  | .otherTruthy => true
  | .absent => false

/-- Check that aud is a string or an array, mirroring
typeof aud === "string" || Array.isArray(aud). -/
def audTypeOk : AudClaim → Bool
  | .str _ => true
  | .arr _ => true
  | _ => false

/-- JavaScript truthiness of an optional string claim. -/
def truthyStr : Option String → Bool
  | some s => decide (s ≠ "")
  | none => false

/-- JavaScript truthiness of an optional numeric claim: 0 is falsy. -/
def truthyNum : Option ℚ → Bool
  | some q => decide (q ≠ 0)
  | none => false

/-- JavaScript comparison x <= y where x may be undefined: a comparison
against NaN is false. -/
def jsLe (x : Option ℚ) (y : ℚ) : Bool :=
  match x with
  | some q => decide (q ≤ y)
  | none => false

/-- Claims decoded from the ID token payload, restricted to the claims the
validation checklist reads. -/
structure IdClaims where
  iss : Option String := none
  sub : Option String := none
  aud : AudClaim := .absent
  azp : Option String := none
  exp : Option ℚ := none
  iat : Option ℚ := none
  auth_time : Option ℚ := none
  nonce : Option String := none
deriving DecidableEq, Repr

/-- Numeric view of the context restored by the session store as the
validation code consumes it: maxAge as a number (the code multiplies it),
issued as Date.valueOf() milliseconds, nonce as the stored string. -/
structure ValCtx where
  maxAge : Option ℚ := none
  issued : Option ℚ := none
  nonce : Option String := none
deriving DecidableEq, Repr

/-- Outcome of a validation step: self.error on a hard error, self.fail with
an info message and status on a soft failure, or ok when every check
passed. -/
inductive AuthOutcome where
  | error (msg : String)
  | fail (message : String) (status : Option Nat)
  | ok
deriving DecidableEq, Repr

/-- Nonce check (check 9): a recorded nonce must be echoed exactly. -/
def nonceCheck (ctx : ValCtx) (claims : IdClaims) : AuthOutcome :=
  if truthyStr ctx.nonce ∧ claims.nonce ≠ ctx.nonce then
    .fail "ID token contains invalid nonce." (some 403)
  else .ok

/-- Max-age check (check 8) followed by the nonce check, mirroring
ctx.maxAge && (!claims.auth_time || ctx.issued.valueOf() - ctx.maxAge * 1000
> claims.auth_time * 1000) with its short-circuit order: a falsy auth_time
fails before ctx.issued is dereferenced; dereferencing an undefined issued
raises a TypeError. -/
def maxAgeNonceChecks (ctx : ValCtx) (claims : IdClaims) : AuthOutcome :=
  if truthyNum ctx.maxAge then
    if ¬ truthyNum claims.auth_time then
      .fail "Too much time has elapsed since last authentication." (some 403)
    else
      match ctx.issued with
      | none => .error "TypeError: ctx.issued is undefined"
      | some issuedMs =>
        if issuedMs - ctx.maxAge.getD 0 * 1000 > claims.auth_time.getD 0 * 1000 then
          .fail "Too much time has elapsed since last authentication." (some 403)
        else nonceCheck ctx claims
  else nonceCheck ctx claims

/-- Authorized-party check (check 4), expiry check (check 5), then the
max-age and nonce checks. -/
def postAudChecks (clientId : String) (ctx : ValCtx) (claims : IdClaims)
    (nowMs : ℚ) : AuthOutcome :=
  if truthyStr claims.azp ∧ claims.azp ≠ some clientId then
    .fail "ID token not issued to this relying party." (some 403)
  else if jsLe claims.exp (nowMs / 1000) then
    .fail "ID token has expired." (some 403)
  else maxAgeNonceChecks ctx claims

/-- Audience checks 2 and 3: a string aud must equal the client id; an array
aud must contain it and, when it has more than one entry, azp must be
present.  The non-string non-array arms are unreachable behind the audience
type check and map to the type error that check already produced. -/
def audCheck (clientId : String) (ctx : ValCtx) (claims : IdClaims)
    (nowMs : ℚ) : AuthOutcome :=
  match claims.aud with
  | .str a =>
    if a ≠ clientId then
      .fail "ID token not intended for this relying party." (some 403)
    else postAudChecks clientId ctx claims nowMs
  | .arr l =>
    if ¬ l.contains clientId then
      .fail "ID token not intended for this relying party." (some 403)
    else if 1 < l.length ∧ ¬ truthyStr claims.azp then
      .fail "ID token missing authorizied party claim." (some 403)
    else postAudChecks clientId ctx claims nowMs
  | _ => .error "ID token audience claim not an array or string value"

/-- Ordered ID-token validation checklist of Strategy.prototype.authenticate
after a successful token exchange: presence of iss, sub, aud, exp, iat, the
audience type check, the issuer check, then the audience and later checks. -/
def validateIdToken (issuer clientId : String) (ctx : ValCtx)
    (claims : IdClaims) (nowMs : ℚ) : AuthOutcome :=
  if ¬ truthyStr claims.iss then .error "ID token missing issuer claim"
  else if ¬ truthyStr claims.sub then .error "ID token missing subject claim"
  else if ¬ claims.aud.isTruthy then .error "ID token missing audience claim"
  else if ¬ truthyNum claims.exp then .error "ID token missing expiration time claim"
  else if ¬ truthyNum claims.iat then .error "ID token missing issued at claim"
  else if ¬ audTypeOk claims.aud then
    .error "ID token audience claim not an array or string value"
  else if claims.iss ≠ some issuer then
    .fail "ID token not issued by expected OpenID provider." (some 403)
  else audCheck clientId ctx claims nowMs

/-- C1 counterexample: the claim fails for a falsy appState.  Storing the
appState false succeeds, but verify with the exact returned handle yields
undefined rather than false, because store only assigns state.state when
appState is truthy. -/
theorem C1_counterexample :
    SessionStore.store {} (.bool false) "h" (some none) =
      .ok (some ⟨some (mkStateRec {} (.bool false) "h"), []⟩) "h" ∧
    (SessionStore.verify (fun _ => 0) "h"
        (some (some ⟨some (mkStateRec {} (.bool false) "h"), []⟩))).outcome =
      .ok ⟨.undefined, .undefined, .undefined, .undefined⟩ .undefined ∧
    JsValue.undefined ≠ JsValue.bool false := by
  refine ⟨rfl, rfl, by decide⟩

/-- C1 (amended): for every request context that has a session, storing an
appState that is truthy or undefined and then verifying the same session with
exactly the returned handle succeeds with a non-false context, yields back
exactly that appState, and leaves no entry under the state sub-key of the
configured key.  (For other falsy appStates the store skips the assignment
and verify yields undefined, see the counterexample.) -/
theorem C1_roundtrip_amended (ctx : SessionCtx) (appState : JsValue)
    (handle : String) (sv : SessionVal) (dateParse : String → ℚ)
    (hApp : truthy appState = true ∨ appState = .undefined) :
    ∃ sv' : SessionVal,
      SessionStore.store ctx appState handle (some sv) = .ok sv' handle ∧
      (∃ rctx, (SessionStore.verify dateParse handle (some sv')).outcome =
          SessionStore.VerifyOutcome.ok rctx appState) ∧
      stateSubkey (SessionStore.verify dateParse handle (some sv')).session = none := by
  refine ⟨_, rfl, ?_, ?_⟩
  · rw [SessionStore.verify_some_eq dateParse handle _ (mkStateRec ctx appState handle) rfl]
    rw [if_neg (by simp [mkStateRec])]
    refine ⟨SessionStore.mkVerifyCtx dateParse (mkStateRec ctx appState handle), ?_⟩
    simp only [SessionStore.VerifyOutcome.ok.injEq, true_and]
    rcases hApp with h | h
    · simp [mkStateRec, h]
    · simp [mkStateRec, h, truthy]
  · rw [SessionStore.verify_some_eq dateParse handle _ (mkStateRec ctx appState handle) rfl]
    rw [if_neg (by simp [mkStateRec])]
    exact stateSubkey_removeState _

/-- C1 witness: the amended round-trip applied to a concrete session holding
an unrelated key, a context carrying a nonce, and a truthy appState. -/
theorem C1_roundtrip_amended_witness :
    ∃ sv' : SessionVal,
      SessionStore.store { nonce := .str "n1" } (.str "returnTo") "hdl42"
          (some (some ⟨none, ["returnTo"]⟩)) = .ok sv' "hdl42" ∧
      (∃ rctx, (SessionStore.verify (fun _ => 0) "hdl42" (some sv')).outcome =
          SessionStore.VerifyOutcome.ok rctx (.str "returnTo")) ∧
      stateSubkey (SessionStore.verify (fun _ => 0) "hdl42" (some sv')).session = none :=
  C1_roundtrip_amended { nonce := .str "n1" } (.str "returnTo") "hdl42"
    (some ⟨none, ["returnTo"]⟩) (fun _ => 0) (Or.inl (by decide))

/-- C2: for every session holding a stored state entry, verifying with a
presented handle different from the stored one yields the soft failure
message "Invalid authorization request state.", which the restored callback
turns into self.fail with status 403; the state sub-key (and the whole entry
when it becomes empty) is removed, and the session left behind is the same
for every presented handle, so removal does not depend on the comparison. -/
theorem C2_invalid_handle (dateParse : String → ℚ) (entry : SessionEntry)
    (st : StateRec) (hst : entry.state = some st) (reqState : String)
    (hne : reqState ≠ st.handle) :
    (SessionStore.verify dateParse reqState (some (some entry))).outcome =
        .failure "Invalid authorization request state." ∧
    restoredHead (SessionStore.verify dateParse reqState (some (some entry))).outcome =
        .fail "Invalid authorization request state." (some 403) ∧
    (SessionStore.verify dateParse reqState (some (some entry))).session =
        some (SessionStore.removeState entry) ∧
    (SessionStore.verify dateParse st.handle (some (some entry))).session =
        some (SessionStore.removeState entry) := by
  rw [SessionStore.verify_some_eq dateParse reqState entry st hst,
    if_pos (fun h => hne h.symm)]
  refine ⟨rfl, rfl, rfl, ?_⟩
  rw [SessionStore.verify_some_eq dateParse st.handle entry st hst]
  split <;> rfl

/-- C2 witness: a concrete session entry with stored handle "hdl42" and an
unrelated application key, verified with the mismatching handle "evil". -/
theorem C2_invalid_handle_witness :
    (SessionStore.verify (fun _ => 0) "evil"
        (some (some ⟨some { handle := "hdl42" }, ["returnTo"]⟩))).outcome =
        .failure "Invalid authorization request state." ∧
    restoredHead (SessionStore.verify (fun _ => 0) "evil"
        (some (some ⟨some { handle := "hdl42" }, ["returnTo"]⟩))).outcome =
        .fail "Invalid authorization request state." (some 403) ∧
    (SessionStore.verify (fun _ => 0) "evil"
        (some (some ⟨some { handle := "hdl42" }, ["returnTo"]⟩))).session =
        some (SessionStore.removeState ⟨some { handle := "hdl42" }, ["returnTo"]⟩) ∧
    (SessionStore.verify (fun _ => 0) (StateRec.handle { handle := "hdl42" })
        (some (some ⟨some { handle := "hdl42" }, ["returnTo"]⟩))).session =
        some (SessionStore.removeState ⟨some { handle := "hdl42" }, ["returnTo"]⟩) :=
  C2_invalid_handle (fun _ => 0) ⟨some { handle := "hdl42" }, ["returnTo"]⟩
    { handle := "hdl42" } rfl "evil" (by decide)

@[simp]
theorem truthyStr_some (s : String) : truthyStr (some s) = decide (s ≠ "") := rfl

@[simp]
theorem truthyStr_none : truthyStr none = false := rfl

@[simp]
theorem truthyNum_some (q : ℚ) : truthyNum (some q) = decide (q ≠ 0) := rfl

@[simp]
theorem truthyNum_none : truthyNum none = false := rfl

/-- Reduction of the validator when the presence checks pass, aud is the
string clientId, the issuer matches and azp is absent: only the expiry,
max-age and nonce checks remain. -/
theorem validateIdToken_reduce_str_aud (issuer clientId : String) (ctx : ValCtx)
    (claims : IdClaims) (nowMs : ℚ)
    (hiss : claims.iss = some issuer) (hissne : issuer ≠ "")
    (hsub : truthyStr claims.sub = true)
    (haud : claims.aud = .str clientId) (hcid : clientId ≠ "")
    (hazp : claims.azp = none)
    (hexp : truthyNum claims.exp = true)
    (hiat : truthyNum claims.iat = true) :
    validateIdToken issuer clientId ctx claims nowMs =
      if jsLe claims.exp (nowMs / 1000) then .fail "ID token has expired." (some 403)
      else maxAgeNonceChecks ctx claims := by
  unfold validateIdToken audCheck postAudChecks
  simp [hiss, haud, hazp, hsub, hexp, hiat, AudClaim.isTruthy, audTypeOk,
    hissne, hcid]

/-- The max-age and nonce checks never produce the expiry failure. -/
theorem maxAgeNonceChecks_ne_expired (ctx : ValCtx) (claims : IdClaims) :
    maxAgeNonceChecks ctx claims ≠ .fail "ID token has expired." (some 403) := by
  unfold maxAgeNonceChecks nonceCheck
  repeat' split
  all_goals decide

/-- The nonce check never produces the max-age failure. -/
theorem nonceCheck_ne_maxage (ctx : ValCtx) (claims : IdClaims) :
    nonceCheck ctx claims ≠
      .fail "Too much time has elapsed since last authentication." (some 403) := by
  unfold nonceCheck
  split <;> decide

/-- C3: for an ID token that passed the earlier checks, validation yields the
soft failure "ID token has expired." with status 403 exactly when exp is less
than or equal to the current time in seconds (Date.now() / 1000); the
comparison is non-strict on the failing side, so a token whose exp equals the
current time is rejected, and no clock-skew allowance appears anywhere in the
comparison. -/
theorem C3_expiry_strict (issuer clientId : String) (ctx : ValCtx)
    (claims : IdClaims) (nowMs e : ℚ)
    (hiss : claims.iss = some issuer) (hissne : issuer ≠ "")
    (hsub : truthyStr claims.sub = true)
    (haud : claims.aud = .str clientId) (hcid : clientId ≠ "")
    (hazp : claims.azp = none)
    (hexp : claims.exp = some e) (he : e ≠ 0)
    (hiat : truthyNum claims.iat = true) :
    (validateIdToken issuer clientId ctx claims nowMs =
        .fail "ID token has expired." (some 403)) ↔ e ≤ nowMs / 1000 := by
  have hexp' : truthyNum claims.exp = true := by
    rw [hexp]; simp [truthyNum, he]
  rw [validateIdToken_reduce_str_aud issuer clientId ctx claims nowMs hiss hissne
    hsub haud hcid hazp hexp' hiat, hexp]
  by_cases hle : e ≤ nowMs / 1000
  · simp [jsLe, hle]
  · simp [jsLe, hle, maxAgeNonceChecks_ne_expired ctx claims]

/-- C3 witness: at nowMs = 10000 milliseconds the current time in seconds is
10; a token with exp = 10 (the boundary) is rejected as expired. -/
theorem C3_expiry_strict_witness :
    ((validateIdToken "https://op.example" "abc" {}
        { iss := some "https://op.example", sub := some "1234",
          aud := .str "abc", exp := some 10, iat := some 5 } 10000 =
        .fail "ID token has expired." (some 403)) ↔ (10 : ℚ) ≤ 10000 / 1000) ∧
    validateIdToken "https://op.example" "abc" {}
        { iss := some "https://op.example", sub := some "1234",
          aud := .str "abc", exp := some 10, iat := some 5 } 10000 =
      .fail "ID token has expired." (some 403) :=
  have h := C3_expiry_strict "https://op.example" "abc" {}
    { iss := some "https://op.example", sub := some "1234",
      aud := .str "abc", exp := some 10, iat := some 5 } 10000 10
    rfl (by decide) (by decide) rfl (by decide) rfl rfl (by decide) (by decide)
  ⟨h, h.mpr (by norm_num)⟩

/-- C4 counterexample: for an aud array containing the client id plus one
other entry and no azp, the code produces the message with the source
spelling "authorizied", not the spelling "authorized" stated by the claim. -/
theorem C4_counterexample :
    validateIdToken "https://op.example" "abc" {}
      { iss := some "https://op.example", sub := some "1234",
        aud := .arr ["abc", "other"], exp := some 99, iat := some 5 } 1000 =
      .fail "ID token missing authorizied party claim." (some 403) ∧
    validateIdToken "https://op.example" "abc" {}
      { iss := some "https://op.example", sub := some "1234",
        aud := .arr ["abc", "other"], exp := some 99, iat := some 5 } 1000 ≠
      .fail "ID token missing authorized party claim." (some 403) := by
  exact ⟨by decide, by decide⟩

/-- C4 (amended): for every ID token whose aud is an array containing the
configured client id with more than one entry and whose azp is absent,
validation yields a soft failure with status 403 and the message as spelled
in the source, "ID token missing authorizied party claim." -/
theorem C4_azp_missing_amended (issuer clientId : String) (ctx : ValCtx)
    (claims : IdClaims) (nowMs : ℚ) (l : List String)
    (hiss : claims.iss = some issuer) (hissne : issuer ≠ "")
    (hsub : truthyStr claims.sub = true)
    (haud : claims.aud = .arr l) (hmem : l.contains clientId = true)
    (hlen : 1 < l.length)
    (hazp : claims.azp = none)
    (hexp : truthyNum claims.exp = true)
    (hiat : truthyNum claims.iat = true) :
    validateIdToken issuer clientId ctx claims nowMs =
      .fail "ID token missing authorizied party claim." (some 403) := by
  have hmem' : clientId ∈ l := by simpa using hmem
  unfold validateIdToken audCheck
  simp [hiss, haud, hazp, hsub, hexp, hiat, AudClaim.isTruthy, audTypeOk,
    hissne, hmem', hlen]

/-- C4 witness: a concrete two-entry audience array containing the client id,
with no azp claim. -/
theorem C4_azp_missing_amended_witness :
    validateIdToken "https://op.example" "abc" {}
      { iss := some "https://op.example", sub := some "1234",
        aud := .arr ["other", "abc"], exp := some 99, iat := some 5 } 1000 =
      .fail "ID token missing authorizied party claim." (some 403) :=
  C4_azp_missing_amended "https://op.example" "abc" {}
    { iss := some "https://op.example", sub := some "1234",
      aud := .arr ["other", "abc"], exp := some 99, iat := some 5 } 1000
    ["other", "abc"] rfl (by decide) (by decide) rfl (by decide) (by decide)
    rfl (by decide) (by decide)

/-- C5 counterexample: the claim fails for auth_time = 0.  The claim predicts
success because auth_time is present and issuedAt - maxAge * 1000 = -60000 is
not greater than auth_time * 1000 = 0, but the code checks !claims.auth_time
and 0 is falsy, so it fails with the max-age message. -/
theorem C5_counterexample :
    validateIdToken "https://op.example" "abc" ⟨some 60, some 0, none⟩
      { iss := some "https://op.example", sub := some "1234",
        aud := .str "abc", exp := some 99, iat := some 5,
        auth_time := some 0 } 1000 =
      .fail "Too much time has elapsed since last authentication." (some 403) ∧
    ¬ ((0 : ℚ) - 60 * 1000 > 0 * 1000) := by
  refine ⟨?_, by norm_num⟩
  rw [validateIdToken_reduce_str_aud "https://op.example" "abc"
      ⟨some 60, some 0, none⟩
      { iss := some "https://op.example", sub := some "1234",
        aud := .str "abc", exp := some 99, iat := some 5, auth_time := some 0 }
      1000 rfl (by decide) (by decide) rfl (by decide) rfl (by decide) (by decide),
    if_neg (by norm_num [jsLe])]
  decide

/-- C5 (amended): when the restored context recorded a nonzero maxAge and an
issued timestamp and the token passed the earlier checks, validation fails
with "Too much time has elapsed since last authentication." and status 403
exactly when auth_time is absent or zero (falsy), or
issuedAt - maxAge * 1000 > auth_time * 1000. -/
theorem C5_max_age_amended (issuer clientId : String) (claims : IdClaims)
    (nowMs e m i : ℚ) (nonceCtx : Option String)
    (hiss : claims.iss = some issuer) (hissne : issuer ≠ "")
    (hsub : truthyStr claims.sub = true)
    (haud : claims.aud = .str clientId) (hcid : clientId ≠ "")
    (hazp : claims.azp = none)
    (hexp : claims.exp = some e) (he : e ≠ 0)
    (hnotexp : ¬ e ≤ nowMs / 1000)
    (hiat : truthyNum claims.iat = true)
    (hm : m ≠ 0) :
    (validateIdToken issuer clientId ⟨some m, some i, nonceCtx⟩ claims nowMs =
        .fail "Too much time has elapsed since last authentication." (some 403)) ↔
      (∀ a, claims.auth_time = some a → (a = 0 ∨ i - m * 1000 > a * 1000)) := by
  have hexp' : truthyNum claims.exp = true := by
    rw [hexp]; simp [truthyNum, he]
  rw [validateIdToken_reduce_str_aud issuer clientId ⟨some m, some i, nonceCtx⟩
    claims nowMs hiss hissne hsub haud hcid hazp hexp' hiat, hexp]
  simp only [jsLe, decide_eq_true_eq, if_neg hnotexp]
  unfold maxAgeNonceChecks
  cases hat : claims.auth_time with
  | none => simp [truthyNum, hm]
  | some a =>
    by_cases ha : a = 0
    · simp [truthyNum, hm, ha]
    · by_cases hgt : i - m * 1000 > a * 1000
      · simp [truthyNum, hm, ha, hgt]
      · simp [truthyNum, hm, ha, hgt, nonceCheck_ne_maxage]

/-- C5 witness: maxAge 60 with issued 50000 milliseconds and auth_time 5:
the token is fresh enough, the check passes, and the iff instance holds. -/
theorem C5_max_age_amended_witness :
    (validateIdToken "https://op.example" "abc" ⟨some 60, some 50000, none⟩
        { iss := some "https://op.example", sub := some "1234",
          aud := .str "abc", exp := some 99, iat := some 5,
          auth_time := some 5 } 1000 =
        .fail "Too much time has elapsed since last authentication." (some 403)) ↔
      (∀ a, (some (5 : ℚ) : Option ℚ) = some a → (a = 0 ∨ (50000 : ℚ) - 60 * 1000 > a * 1000)) :=
  C5_max_age_amended "https://op.example" "abc"
    { iss := some "https://op.example", sub := some "1234",
      aud := .str "abc", exp := some 99, iat := some 5,
      auth_time := some 5 } 1000 99 60 50000 none
    rfl (by decide) (by decide) rfl (by decide) rfl rfl (by decide)
    (by norm_num) (by decide) (by decide)

/-! Authorization request builder, the else branch of
Strategy.prototype.authenticate in lib/strategy.js.  Scope arrays are
modelled through a heap of arrays so that object identity, and therefore the
in-place unshift mutation, is observable.  Each params field is written by at
most one conditional assignment in the source, so the params object is
modelled as one record whose fields hold the assigned value or none. -/

/-- Scope value as carried by options.scope or the strategy scope: absent, a
string, or a reference to an array of strings in the heap. -/
inductive ScopeVal where
  | undef
  | str (s : String)
  | ref (i : ℕ)
deriving DecidableEq, Repr

/-- Heap of scope arrays addressed by ScopeVal.ref. -/
abbrev Heap := List (List String)

/-- JavaScript truthiness of a scope value: arrays are objects and always
truthy, the empty string is falsy. -/
def ScopeVal.isTruthy : ScopeVal → Bool
  | .undef => false
  | .str s => decide (s ≠ "")
  | .ref _ => true

/-- Effective scope options.scope || this._scope. -/
def effScope (optScope cfgScope : ScopeVal) : ScopeVal :=
  if optScope.isTruthy then optScope else cfgScope

/-- JavaScript String.prototype.split(" "), modelled on the character
list. -/
def jsSplitSpace (s : String) : List String :=
  (s.toList.splitOn ' ').map (fun cs => String.mk cs)

/-- Scope section of the builder: a truthy string scope is split on spaces
into a fresh array; an array scope is used through its reference; when
"openid" is missing it is prepended by unshift, mutating the referenced array
in the heap; the parameter is the space-joined array.  A falsy scope yields
the plain "openid".  Returns the heap after the section and the value
assigned to params.scope. -/
def buildScope (heap : Heap) (scope : ScopeVal) : Heap × Option String :=
  if scope.isTruthy then
    match scope with
    | .str s =>
      let arr := jsSplitSpace s
      let arr := if arr.contains "openid" then arr else "openid" :: arr
      (heap, some (String.intercalate " " arr))
    | .ref i =>
      match heap[i]? with
      | some arr =>
        if arr.contains "openid" then
          (heap, some (String.intercalate " " arr))
        else
          (heap.set i ("openid" :: arr),
            some (String.intercalate " " ("openid" :: arr)))
      | none => (heap, none)
    | .undef => (heap, none)
  else (heap, some "openid")

/-- Parameters of the authorization request as assembled by the builder. -/
structure AuthzParams where
  response_type : Option String := none
  response_mode : Option String := none
  client_id : Option String := none
  redirect_uri : Option String := none
  scope : Option String := none
  prompt : Option String := none
  display : Option String := none
  ui_locales : Option String := none
  login_hint : Option String := none
  max_age : Option String := none
  acr_values : Option String := none
  id_token_hint : Option String := none
  nonce : Option String := none
  claims : Option String := none
  code_challenge : Option String := none
  code_challenge_method : Option String := none
  state : Option String := none
deriving DecidableEq, Repr

/-- Strategy configuration fields read by the authorization leg.  The claims
option is carried in its JSON.stringify serialization, which is all the
builder does with it. -/
structure StrategyConfig where
  clientId : String
  scope : ScopeVal := .undef
  responseMode : Option String := none
  prompt : Option String := none
  display : Option String := none
  uiLocales : Option String := none
  loginHint : Option String := none
  maxAge : Option String := none
  acrValues : Option String := none
  idTokenHint : Option String := none
  claimsJson : Option String := none
  nonceEnabled : Bool := false
  pkce : Option String := none
deriving DecidableEq, Repr

/-- Per-call options read by the authorization leg. -/
structure AuthnOptions where
  scope : ScopeVal := .undef
  prompt : Option String := none
  display : Option String := none
  loginHint : Option String := none
  state : JsValue := .undefined
deriving DecidableEq, Repr

/-- JavaScript a || b on optional strings. -/
def jsOrStr (a b : Option String) : Option String :=
  if truthyStr a then a else b

/-- Value kept by an assignment guarded by its own truthiness,
if (x) params.y = x. -/
def keepTruthy (x : Option String) : Option String :=
  if truthyStr x then x else none

/-- JavaScript string value of an optional string, undefined when absent. -/
def jsStr : Option String → JsValue
  | some s => .str s
  | none => .undefined

/-- Parameter assembly of the authorization leg before the PKCE section,
field by field in source order; scopeParam is the value produced by the scope
section and nonceRand the fresh utils.uid(20) nonce. -/
def buildParams (cfg : StrategyConfig) (opts : AuthnOptions)
    (callbackURL : Option String) (scopeParam : Option String)
    (nonceRand : String) : AuthzParams :=
  { response_type := some "code"
    response_mode := keepTruthy cfg.responseMode
    client_id := some cfg.clientId
    redirect_uri := keepTruthy callbackURL
    scope := scopeParam
    prompt := keepTruthy (jsOrStr opts.prompt cfg.prompt)
    display := keepTruthy (jsOrStr opts.display cfg.display)
    ui_locales := keepTruthy cfg.uiLocales
    login_hint := keepTruthy (jsOrStr opts.loginHint cfg.loginHint)
    max_age := keepTruthy cfg.maxAge
    acr_values := keepTruthy cfg.acrValues
    id_token_hint := keepTruthy cfg.idTokenHint
    nonce := if cfg.nonceEnabled then some nonceRand else none
    claims := cfg.claimsJson
    code_challenge := none
    code_challenge_method := none
    state := none }

/-- Session context recorded for the pending request: maxAge and the issued
timestamp new Date() are written together under if (params.max_age), the
nonce under if (params.nonce); the PKCE verifier is added afterwards. -/
def buildCtx (params : AuthzParams) (now : ℚ) : SessionCtx :=
  { maxAge := if truthyStr params.max_age then jsStr params.max_age else .undefined
    issued := if truthyStr params.max_age then .date now else .undefined
    nonce := if truthyStr params.nonce then jsStr params.nonce else .undefined
    verifier := .undefined }

/-- Outcome of the builder: a configuration error through self.error, or the
assembled params, context and appState reaching the state store call (the
only path that can end in a redirect). -/
inductive BuildOutcome where
  | errorOut (msg : String)
  | proceedStore (params : AuthzParams) (ctx : SessionCtx) (appState : JsValue)
deriving DecidableEq, Repr

/-- Result of the authorization leg: its outcome and the heap after the
scope section. -/
structure BuildResult where
  outcome : BuildOutcome
  heap : Heap
deriving DecidableEq, Repr

/-- Authorization leg of Strategy.prototype.authenticate: scope section,
parameter assembly, context construction, then the PKCE section, which on
mode S256 sets code_challenge to the url-safe-base64 SHA-256 digest of the
fresh verifier, on mode plain sets code_challenge to the verifier itself,
declares code_challenge_method S256 in both cases, and returns a
configuration error for any other truthy mode. -/
def authorizeLeg (cfg : StrategyConfig) (opts : AuthnOptions)
    (callbackURL : Option String) (heap : Heap) (now : ℚ)
    (nonceRand verifier : String) (sha256b64url : String → String) : BuildResult :=
  let scopeRes := buildScope heap (effScope opts.scope cfg.scope)
  let params := buildParams cfg opts callbackURL scopeRes.2 nonceRand
  let ctx := buildCtx params now
  match cfg.pkce with
  | none => ⟨.proceedStore params ctx opts.state, scopeRes.1⟩
  | some p =>
    if p = "" then ⟨.proceedStore params ctx opts.state, scopeRes.1⟩
    else if p = "S256" then
      ⟨.proceedStore
        { params with code_challenge := some (sha256b64url verifier)
                      code_challenge_method := some "S256" }
        { ctx with verifier := .str verifier } opts.state, scopeRes.1⟩
    else if p = "plain" then
      ⟨.proceedStore
        { params with code_challenge := some verifier
                      code_challenge_method := some "S256" }
        { ctx with verifier := .str verifier } opts.state, scopeRes.1⟩
    else
      ⟨.errorOut ("Unsupported code verifier transformation method: " ++ p),
        scopeRes.1⟩

/-! Entry dispatch of Strategy.prototype.authenticate: the provider-reported
error branch, then the split between the token leg (a code parameter is
present) and the authorization leg. -/

/-- Query parameters of the incoming request that the dispatch reads. -/
structure Query where
  error : Option String := none
  error_description : Option String := none
  error_uri : Option String := none
  code : Option String := none
  state : Option String := none
deriving DecidableEq, Repr

/-- Where the entry dispatch sends the request: a soft self.fail carrying the
provider error_description, a raised AuthorizationError with its
(message, code, uri) arguments, the token leg, or the authorization leg. -/
inductive Dispatch where
  | failD (message : Option String)
  | errorAuthz (message : Option String) (code : Option String) (uri : Option String)
  | tokenLeg
  | authorizeLeg
deriving DecidableEq, Repr

/-- Entry dispatch: if req.query && req.query.error, an access_denied error
code becomes self.fail({message: error_description}) and any other error
value becomes self.error(new AuthorizationError(error_description, error,
error_uri)); otherwise req.query && req.query.code selects the token leg and
anything else the authorization leg. -/
def authenticateDispatch (query : Option Query) : Dispatch :=
  match query with
  | some q =>
    if truthyStr q.error then
      if q.error = some "access_denied" then .failD q.error_description
      else .errorAuthz q.error_description q.error q.error_uri
    else if truthyStr q.code then .tokenLeg
    else .authorizeLeg
  | none => .authorizeLeg

/-- Reduction of the scope section on an array reference present in the
heap. -/
theorem buildScope_ref (heap : Heap) (i : ℕ) (arr : List String)
    (hget : heap[i]? = some arr) :
    buildScope heap (.ref i) =
      if arr.contains "openid" then (heap, some (String.intercalate " " arr))
      else (heap.set i ("openid" :: arr),
        some (String.intercalate " " ("openid" :: arr))) := by
  unfold buildScope
  simp only [ScopeVal.isTruthy, reduceIte]
  rw [hget]

/-- The heap returned by the authorization leg is the heap left by the scope
section, in every branch of the PKCE section. -/
theorem authorizeLeg_heap (cfg : StrategyConfig) (opts : AuthnOptions)
    (callbackURL : Option String) (heap : Heap) (now : ℚ)
    (nonceRand verifier : String) (sha256b64url : String → String) :
    (authorizeLeg cfg opts callbackURL heap now nonceRand verifier sha256b64url).heap =
      (buildScope heap (effScope opts.scope cfg.scope)).1 := by
  unfold authorizeLeg
  rcases h : cfg.pkce with _ | p
  · rfl
  · simp only
    split_ifs <;> rfl

/-- Shape of a proceedStore outcome of the authorization leg: the params are
the assembled parameters with some values of the two PKCE fields, the
context is the built context with some verifier value, and the appState is
options.state. -/
theorem authorizeLeg_proceed_shape (cfg : StrategyConfig) (opts : AuthnOptions)
    (callbackURL : Option String) (heap : Heap) (now : ℚ)
    (nonceRand verifier : String) (sha256b64url : String → String)
    (params : AuthzParams) (ctx : SessionCtx) (appState : JsValue)
    (h : (authorizeLeg cfg opts callbackURL heap now nonceRand verifier sha256b64url).outcome =
      .proceedStore params ctx appState) :
    ∃ cc ccm v,
      params = { buildParams cfg opts callbackURL
          (buildScope heap (effScope opts.scope cfg.scope)).2 nonceRand with
          code_challenge := cc, code_challenge_method := ccm } ∧
      ctx = { buildCtx (buildParams cfg opts callbackURL
          (buildScope heap (effScope opts.scope cfg.scope)).2 nonceRand) now with
          verifier := v } ∧
      appState = opts.state := by
  revert h
  unfold authorizeLeg
  rcases hp : cfg.pkce with _ | p
  · intro h
    simp only [BuildOutcome.proceedStore.injEq] at h
    exact ⟨none, none, .undefined, h.1.symm, h.2.1.symm, h.2.2.symm⟩
  · simp only
    split_ifs <;> intro h <;>
      simp only [BuildOutcome.proceedStore.injEq] at h
    · exact ⟨none, none, .undefined, h.1.symm, h.2.1.symm, h.2.2.symm⟩
    · exact ⟨some (sha256b64url verifier), some "S256", .str verifier,
        h.1.symm, h.2.1.symm, h.2.2.symm⟩
    · exact ⟨some verifier, some "S256", .str verifier,
        h.1.symm, h.2.1.symm, h.2.2.symm⟩

/-- C6: with PKCE mode plain the authorization request carries the verifier
itself as code_challenge while still declaring code_challenge_method S256;
with mode S256 it carries the url-safe-base64 SHA-256 digest of the verifier
with method S256; any other non-empty mode makes the leg return the
configuration error instead of reaching the store call that leads to the
redirect. -/
theorem C6_pkce_modes (cfg : StrategyConfig) (opts : AuthnOptions)
    (callbackURL : Option String) (heap : Heap) (now : ℚ)
    (nonceRand verifier : String) (sha256b64url : String → String)
    (mode : String) (hpk : cfg.pkce = some mode) :
    (mode = "plain" → ∃ params ctx,
      (authorizeLeg cfg opts callbackURL heap now nonceRand verifier sha256b64url).outcome =
        .proceedStore params ctx opts.state ∧
      params.code_challenge = some verifier ∧
      params.code_challenge_method = some "S256") ∧
    (mode = "S256" → ∃ params ctx,
      (authorizeLeg cfg opts callbackURL heap now nonceRand verifier sha256b64url).outcome =
        .proceedStore params ctx opts.state ∧
      params.code_challenge = some (sha256b64url verifier) ∧
      params.code_challenge_method = some "S256") ∧
    (mode ≠ "" → mode ≠ "plain" → mode ≠ "S256" →
      (authorizeLeg cfg opts callbackURL heap now nonceRand verifier sha256b64url).outcome =
        .errorOut ("Unsupported code verifier transformation method: " ++ mode)) := by
  unfold authorizeLeg
  rw [hpk]
  refine ⟨?_, ?_, ?_⟩
  · rintro rfl
    simp only [reduceIte]
    exact ⟨_, _, rfl, rfl, rfl⟩
  · rintro rfl
    simp only [reduceIte]
    exact ⟨_, _, rfl, rfl, rfl⟩
  · intro h1 h2 h3
    simp only [if_neg h1, if_neg h3, if_neg h2]

/-- C7: the scope parameter of the built authorization request is exactly
"openid profile" whether the effective scope is the string "openid profile",
an array ["openid", "profile"], or an array ["profile"] (openid is prepended
exactly when missing, never duplicated, always first), and exactly "openid"
when no scope is configured. -/
theorem C7_scope_idempotent (cfg : StrategyConfig) (opts : AuthnOptions)
    (callbackURL : Option String) (heap : Heap) (now : ℚ)
    (nonceRand verifier : String) (sha256b64url : String → String)
    (params : AuthzParams) (ctx : SessionCtx) (appState : JsValue) (i : ℕ)
    (h : (authorizeLeg cfg opts callbackURL heap now nonceRand verifier sha256b64url).outcome =
      .proceedStore params ctx appState) :
    (effScope opts.scope cfg.scope = .str "openid profile" →
      params.scope = some "openid profile") ∧
    (effScope opts.scope cfg.scope = .ref i →
      heap[i]? = some ["openid", "profile"] →
      params.scope = some "openid profile") ∧
    (effScope opts.scope cfg.scope = .ref i →
      heap[i]? = some ["profile"] →
      params.scope = some "openid profile") ∧
    (effScope opts.scope cfg.scope = .undef →
      params.scope = some "openid") := by
  obtain ⟨cc, ccm, v, hparams, -, -⟩ :=
    authorizeLeg_proceed_shape cfg opts callbackURL heap now nonceRand verifier
      sha256b64url params ctx appState h
  have hps : params.scope = (buildScope heap (effScope opts.scope cfg.scope)).2 := by
    rw [hparams]
    rfl
  refine ⟨?_, ?_, ?_, ?_⟩
  · intro hs
    rw [hps, hs]
    rfl
  · intro hs hget
    rw [hps, hs, buildScope_ref heap i _ hget]
    rfl
  · intro hs hget
    rw [hps, hs, buildScope_ref heap i _ hget]
    rfl
  · intro hs
    rw [hps, hs]
    rfl

/-- C9: in every context the authorization leg hands to the state store, the
issued timestamp is recorded exactly when params.max_age was set, maxAge and
issued are truthy together, and therefore every stored pending state record
that contains a maxAge also contains the issued timestamp. -/
theorem C9_issued_iff_max_age (cfg : StrategyConfig) (opts : AuthnOptions)
    (callbackURL : Option String) (heap : Heap) (now : ℚ)
    (nonceRand verifier : String) (sha256b64url : String → String)
    (params : AuthzParams) (ctx : SessionCtx) (appState : JsValue)
    (handle : String)
    (h : (authorizeLeg cfg opts callbackURL heap now nonceRand verifier sha256b64url).outcome =
      .proceedStore params ctx appState) :
    (ctx.issued = .date now ↔ truthyStr params.max_age = true) ∧
    truthy ctx.maxAge = truthy ctx.issued ∧
    ((mkStateRec ctx appState handle).maxAge ≠ .undefined →
      (mkStateRec ctx appState handle).issued = .date now) := by
  obtain ⟨cc, ccm, v, hparams, hctx, -⟩ :=
    authorizeLeg_proceed_shape cfg opts callbackURL heap now nonceRand verifier
      sha256b64url params ctx appState h
  subst hparams
  subst hctx
  rcases hkt : keepTruthy cfg.maxAge with _ | s
  · refine ⟨?_, ?_, ?_⟩
    · simp [buildCtx, buildParams, hkt]
    · simp [buildCtx, buildParams, hkt, truthy]
    · simp [mkStateRec, buildCtx, buildParams, hkt, truthy]
  · by_cases hs : s = ""
    · subst hs
      refine ⟨?_, ?_, ?_⟩
      · simp [buildCtx, buildParams, hkt]
      · simp [buildCtx, buildParams, hkt, truthy]
      · simp [mkStateRec, buildCtx, buildParams, hkt, truthy]
    · refine ⟨?_, ?_, ?_⟩
      · simp [buildCtx, buildParams, hkt, hs]
      · simp [buildCtx, buildParams, hkt, hs, jsStr, truthy]
      · simp [mkStateRec, buildCtx, buildParams, hkt, hs, jsStr, truthy]

/-- C10: when the effective scope is an array reference whose array does not
contain "openid", the builder mutates that very array in the heap in place,
setting the same cell to the array with "openid" prepended; an array already
containing "openid" and a string scope leave the heap untouched. -/
theorem C10_scope_in_place (cfg : StrategyConfig) (opts : AuthnOptions)
    (callbackURL : Option String) (heap : Heap) (now : ℚ)
    (nonceRand verifier : String) (sha256b64url : String → String)
    (i : ℕ) (arr : List String) (s : String) :
    (effScope opts.scope cfg.scope = .ref i → heap[i]? = some arr →
      arr.contains "openid" = false →
      (authorizeLeg cfg opts callbackURL heap now nonceRand verifier sha256b64url).heap =
        heap.set i ("openid" :: arr)) ∧
    (effScope opts.scope cfg.scope = .ref i → heap[i]? = some arr →
      arr.contains "openid" = true →
      (authorizeLeg cfg opts callbackURL heap now nonceRand verifier sha256b64url).heap =
        heap) ∧
    (effScope opts.scope cfg.scope = .str s →
      (authorizeLeg cfg opts callbackURL heap now nonceRand verifier sha256b64url).heap =
        heap) := by
  refine ⟨?_, ?_, ?_⟩
  · intro hs hget hc
    have hcF : ¬ (arr.contains "openid" = true) := by
      simp only [hc]
      exact Bool.false_ne_true
    rw [authorizeLeg_heap, hs, buildScope_ref heap i arr hget, if_neg hcF]
  · intro hs hget hc
    rw [authorizeLeg_heap, hs, buildScope_ref heap i arr hget, if_pos hc]
  · intro hs
    rw [authorizeLeg_heap, hs]
    unfold buildScope
    split <;> rfl

/-- C6 witness: with PKCE mode plain and a session-independent concrete
configuration, the leg proceeds with the verifier itself as code_challenge
and method S256. -/
theorem C6_pkce_modes_witness :
    ∃ params ctx,
      (authorizeLeg { clientId := "abc", pkce := some "plain" } {} none [] 0 "n"
          "ver123" (fun s => s ++ "#sha")).outcome =
        .proceedStore params ctx .undefined ∧
      params.code_challenge = some "ver123" ∧
      params.code_challenge_method = some "S256" :=
  (C6_pkce_modes { clientId := "abc", pkce := some "plain" } {} none [] 0 "n"
    "ver123" (fun s => s ++ "#sha") "plain" rfl).1 rfl

/-- Concrete strategy configuration used by the C7 witness. -/
def c7cfg : StrategyConfig := { clientId := "abc" }

/-- Concrete call options used by the C7 witness. -/
def c7opts : AuthnOptions := { scope := .str "openid profile" }

/-- Parameters the C7 witness configuration assembles. -/
def c7params : AuthzParams :=
  buildParams c7cfg c7opts none (buildScope [] (effScope c7opts.scope c7cfg.scope)).2 "n"

/-- Context the C7 witness configuration records. -/
def c7ctx : SessionCtx := buildCtx c7params 0

/-- C7 witness: with the per-call scope string "openid profile" the built
request carries exactly the scope parameter "openid profile". -/
theorem C7_scope_idempotent_witness :
    c7params.scope = some "openid profile" :=
  (C7_scope_idempotent c7cfg c7opts none [] 0 "n" "v" (fun _ => "h")
    c7params c7ctx .undefined 0 rfl).1 rfl

/-- Concrete strategy configuration with a maxAge used by the C9 witness. -/
def c9cfg : StrategyConfig := { clientId := "abc", maxAge := some "300" }

/-- Parameters the C9 witness configuration assembles. -/
def c9params : AuthzParams :=
  buildParams c9cfg {} none
    (buildScope [] (effScope (({} : AuthnOptions)).scope c9cfg.scope)).2 "n"

/-- Context the C9 witness configuration records at time 7. -/
def c9ctx : SessionCtx := buildCtx c9params 7

/-- C9 witness: with maxAge "300" configured, the recorded context carries
the issued timestamp, maxAge and issued are truthy together, and the stored
record keeps the issued date. -/
theorem C9_issued_iff_max_age_witness :
    ((c9ctx.issued = .date 7 ↔ truthyStr c9params.max_age = true) ∧
      truthy c9ctx.maxAge = truthy c9ctx.issued) ∧
    (mkStateRec c9ctx .undefined "hdl").issued = .date 7 :=
  ⟨⟨(C9_issued_iff_max_age c9cfg {} none [] 7 "n" "v" (fun _ => "h")
      c9params c9ctx .undefined "hdl" rfl).1,
    (C9_issued_iff_max_age c9cfg {} none [] 7 "n" "v" (fun _ => "h")
      c9params c9ctx .undefined "hdl" rfl).2.1⟩,
    (C9_issued_iff_max_age c9cfg {} none [] 7 "n" "v" (fun _ => "h")
      c9params c9ctx .undefined "hdl" rfl).2.2 (by decide)⟩

/-- C10 witness: a heap holding the array ["profile"] referenced as the scope
option is mutated in place to ["openid", "profile"] at its own cell. -/
theorem C10_scope_in_place_witness :
    (authorizeLeg { clientId := "abc" } { scope := .ref 0 } none [["profile"]] 0
        "n" "v" (fun _ => "h")).heap =
      ([["profile"]] : Heap).set 0 ("openid" :: ["profile"]) :=
  (C10_scope_in_place { clientId := "abc" } { scope := .ref 0 } none
    [["profile"]] 0 "n" "v" (fun _ => "h") 0 ["profile"] "x").1 rfl rfl rfl

/-- C8 counterexample: the claim fails for a present but empty error
parameter.  The code gates the error branch on truthiness, the empty string
is falsy, so with a code parameter also present the dispatch proceeds to the
token exchange leg instead of raising an AuthorizationError. -/
theorem C8_counterexample :
    authenticateDispatch (some { error := some "", code := some "SplxlOBe" }) =
      .tokenLeg ∧
    (some "" : Option String) ≠ some "access_denied" := by
  exact ⟨rfl, by decide⟩

/-- C8 (amended): for every incoming request whose query carries a non-empty
error parameter, the value access_denied produces the soft rejection
self.fail carrying the provider error_description as message, and every
other value produces the hard AuthorizationError built from
error_description, error and error_uri; in both cases the dispatch never
reaches the token exchange leg. -/
theorem C8_error_dispatch_amended (q : Query) (e : String)
    (herr : q.error = some e) (hne : e ≠ "") :
    (e = "access_denied" →
      authenticateDispatch (some q) = .failD q.error_description) ∧
    (e ≠ "access_denied" →
      authenticateDispatch (some q) =
        .errorAuthz q.error_description q.error q.error_uri) ∧
    authenticateDispatch (some q) ≠ .tokenLeg ∧
    authenticateDispatch (some q) ≠ .authorizeLeg := by
  have htr : truthyStr q.error = true := by
    rw [herr]
    simp [hne]
  have hred : authenticateDispatch (some q) =
      if q.error = some "access_denied" then .failD q.error_description
      else .errorAuthz q.error_description q.error q.error_uri := by
    simp only [authenticateDispatch]
    rw [if_pos htr]
  refine ⟨?_, ?_, ?_, ?_⟩
  · intro hacc
    rw [hred, if_pos (by rw [herr, hacc])]
  · intro hacc
    rw [hred, if_neg (by rw [herr]; simp [hacc])]
  · rw [hred]
    split <;> simp
  · rw [hred]
    split <;> simp

/-- Concrete callback query used by the C8 witness. -/
def c8q : Query :=
  { error := some "server_error", error_description := some "boom",
    error_uri := some "u", code := some "c" }

/-- C8 witness: a server_error callback with description and uri produces the
raised AuthorizationError with exactly those fields and never the token
leg. -/
theorem C8_error_dispatch_amended_witness :
    ("server_error" = "access_denied" →
      authenticateDispatch (some c8q) = .failD (some "boom")) ∧
    ("server_error" ≠ "access_denied" →
      authenticateDispatch (some c8q) =
        .errorAuthz (some "boom") (some "server_error") (some "u")) ∧
    authenticateDispatch (some c8q) ≠ .tokenLeg ∧
    authenticateDispatch (some c8q) ≠ .authorizeLeg :=
  C8_error_dispatch_amended c8q "server_error" rfl (by decide)

end PassportOIDC
